import Mathlib

/-!
Verification of the TweetFlow auto-pilot slice.

Shallow embedding of the repository's source:
  * `types.ts`              — `Tone`, `PostStatus`, `UserProfile`, `Tweet`, `NotificationItem`
  * `services/geminiService.ts` — `generateTweetIdeas`, `generateAutoTweet`
  * `App.tsx`               — the React component's state, the auto-pilot
    `useEffect` (interval supervision), and the event handlers.

Modelling conventions:
  * JavaScript timestamps (`Date.now()`, ISO strings) are carried as `Nat`
    milliseconds; the id strings produced by `Date.now().toString()` are
    `Nat.repr` of that timestamp.
  * The external generation collaborator (`ai.models.generateContent`) is an
    input to each function: it either raises or returns a response whose
    `.text` field is an optional string (`CollabResult`).
  * `Math.floor(Math.random() * interests.length)` is modelled by an arbitrary
    `rnd : Nat` reduced modulo the length, which ranges over exactly the valid
    indices.
  * Fallible code is embedded in `Except JsErr`; a `try`/`catch` is a `match`
    on the `Except` value of the try-block.
  * React semantics for the component: an effect re-runs (cleanup of the
    previous run first, then the body) exactly when one entry of its
    dependency array is not `Object.is`-equal to the previous one; primitive
    deps compare by value, the `interests` array by reference (every
    `setUser` that rebuilds the array yields a fresh reference).
-/

set_option linter.unusedVariables false

/-- Enum `Tone` from `types.ts`. -/
inductive Tone where
  | professional
  | casual
  | humorous
  | controversial
  | inspirational
  | technical
deriving DecidableEq, Repr

/-- Enum `PostStatus` from `types.ts`. -/
inductive PostStatus where
  | generated
  | scheduled
  | posted
  | failed
deriving DecidableEq, Repr

/-- The `'success' | 'error' | 'info'` union used for notifications. -/
inductive NotifType where
  | success
  | error
  | info
deriving DecidableEq, Repr

/-- Interface `Tweet` from `types.ts`.  Timestamps are `Nat` milliseconds
(`createdAt` holds the value that the source renders with `toISOString`). -/
structure Tweet where
  id : String
  content : String
  status : PostStatus
  scheduledTime : Option Nat
  createdAt : Nat
  likes : Option Nat
  retweets : Option Nat
deriving DecidableEq, Repr

/-- Interface `NotificationItem` from `types.ts`. -/
structure NotificationItem where
  id : String
  type : NotifType
  message : String
deriving DecidableEq, Repr

/-- Interface `UserProfile` from `types.ts`. -/
structure UserProfile where
  handle : String
  name : String
  avatarUrl : String
  isConnected : Bool
  interests : List String
  language : String
  preferredTone : Tone
  autoPilot : Bool
deriving DecidableEq, Repr

/-- A JavaScript exception value; only its `.message` is observed. -/
structure JsErr where
  message : String
deriving DecidableEq, Repr

/-- Outcome of one `ai.models.generateContent` call: the awaited promise
either rejects (`raise`) or yields a response whose `.text` is an optional
string (`returns`). -/
inductive CollabResult where
  | raise (msg : String)
  | returns (text : Option String)
deriving DecidableEq, Repr

/-- The expression `interests[0] || 'tech'` from the fallback branch of
`generateTweetIdeas` (JS `||` also replaces an empty first interest). -/
def headOrTech : List String → String
  | [] => "tech"
  | h :: _ => if h = "" then "tech" else h

/-- Embedding of `generateTweetIdeas` from `services/geminiService.ts`.
`collab` is the collaborator call's outcome and `parse` models
`JSON.parse(jsonStr) as string[]` (which throws on invalid JSON).  The
`language`, `tone` and `count` arguments only feed the prompt string, which is
part of the elided external request.  The `Except` codomain would record an
uncaught exception propagating to the caller. -/
def generateTweetIdeas (interests : List String) (language : String)
    (tone : Tone) (count : Nat) (collab : CollabResult)
    (parse : String → Except JsErr (List String)) :
    Except JsErr (List String) :=
  if interests.length = 0 then
    Except.ok ["Please add some interests to generate tweets."]
  else
    let tryBlock : Except JsErr (List String) :=
      match collab with
      | CollabResult.raise msg => Except.error ⟨msg⟩
      | CollabResult.returns none => Except.error ⟨"Empty response from AI"⟩
      | CollabResult.returns (some jsonStr) =>
        if jsonStr = "" then Except.error ⟨"Empty response from AI"⟩
        else parse jsonStr
    match tryBlock with
    | Except.ok arr => Except.ok arr
    | Except.error e =>
      Except.ok
        [ "Could not connect to AI: " ++ e.message ++ ". Check API Key.",
          "Here is a sample tweet about " ++ headOrTech interests ++
            " generated locally as fallback." ]

/-- JavaScript `String.prototype.trim`: strip whitespace from both ends.
Defined structurally over the character list (Lean's own `String.trim` is
extensionally the same but is defined by well-founded recursion, which the
kernel cannot evaluate). -/
def jsTrim (s : String) : String :=
  ⟨((s.data.dropWhile Char.isWhitespace).reverse.dropWhile
      Char.isWhitespace).reverse⟩

/-- Embedding of `generateAutoTweet` from `services/geminiService.ts`.
`rnd % interests.length` stands for `Math.floor(Math.random() *
interests.length)`, which is a valid index for any randomness source. -/
def generateAutoTweet (interests : List String) (language : String)
    (tone : Tone) (rnd : Nat) (collab : CollabResult) : Except JsErr String :=
  if interests.length = 0 then
    Except.ok "I need interests to generate a tweet!"
  else
    let randomInterest := interests.getD (rnd % interests.length) ""
    let tryBlock : Except JsErr String :=
      match collab with
      | CollabResult.raise msg => Except.error ⟨msg⟩
      | CollabResult.returns none =>
        Except.ok ("Checking out the latest in " ++ randomInterest ++ "!")
      | CollabResult.returns (some t) =>
        if jsTrim t = "" then
          Except.ok ("Checking out the latest in " ++ randomInterest ++ "!")
        else
          Except.ok (jsTrim t)
    match tryBlock with
    | Except.ok s => Except.ok s
    | Except.error _e =>
      Except.ok ("Excited to learn more about " ++ randomInterest ++
        "! #learning")

/-- The configuration captured by the interval callback's closure when the
auto-pilot effect creates `setInterval` (the `user` object of that render). -/
structure Closure where
  interests : List String
  language : String
  tone : Tone
deriving DecidableEq, Repr

/-- State of the `App` component.  `refSet` is `autoPilotIntervalRef.current
!== null`; `refTimerAlive` says the interval id stored in the ref has not been
passed to `clearInterval`; `activeTimers` counts all running intervals (to
state the at-most-one-timer invariant); `pending` holds the closures of
interval callbacks that have fired and whose `generateAutoTweet` promise is
still outstanding; `now` is the current clock in milliseconds. -/
structure AppState where
  user : UserProfile
  posts : List Tweet
  notifications : List NotificationItem
  generatedOptions : List String
  refSet : Bool
  refTimerAlive : Bool
  activeTimers : Nat
  timerClosure : Closure
  pending : List Closure
  now : Nat
deriving DecidableEq, Repr

/-- Helper `addNotification` from `App.tsx`: id is `Date.now().toString()`,
the item is appended at the end (`[...prev, {...}]`). -/
def mkNotif (t : Nat) (ty : NotifType) (message : String) : NotificationItem :=
  { id := Nat.repr t, type := ty, message := message }

/-- State effect of `addNotification(message, type)`. -/
def addNotification (s : AppState) (message : String) (ty : NotifType) :
    AppState :=
  { s with notifications := s.notifications ++ [mkNotif s.now ty message] }

/-- The two mock posts installed by the initial-data effect when
`user.isConnected` becomes true. -/
def mockPosts (t : Nat) : List Tweet :=
  [ { id := "1",
      content := "Just deployed my first React 18 app! The concurrent features are game-changing. #ReactJS #WebDev",
      status := PostStatus.posted,
      scheduledTime := none,
      createdAt := t - 86400000,
      likes := some 42,
      retweets := some 5 },
    { id := "2",
      content := "AI is not replacing developers, it is augmenting them. Learning to prompt is the new syntax. #AI #Coding",
      status := PostStatus.scheduled,
      scheduledTime := some (t + 3600000),
      createdAt := t,
      likes := none,
      retweets := none } ]

/-- The initial-data `useEffect` (deps `[user.isConnected]`): when connected,
`setPosts` replaces the queue with the two mock posts. -/
def dataEffect (s : AppState) : AppState :=
  if s.user.isConnected then { s with posts := mockPosts s.now } else s

/-- Body of the auto-pilot `useEffect`.  When the flag and connection are on
and the ref is null it emits the engaged notification, creates one interval
(whose callback closes over the current `user` config) and stores its id in
the ref; otherwise, when the ref is non-null, it clears the interval, nulls
the ref and emits the disengaged notification. -/
def autoPilotEffectBody (s : AppState) : AppState :=
  if s.user.autoPilot && s.user.isConnected then
    if !s.refSet then
      let s1 := addNotification s "Auto-Pilot engaged. AI will post periodically." NotifType.success
      { s1 with
        refSet := true,
        refTimerAlive := true,
        activeTimers := s1.activeTimers + 1,
        timerClosure :=
          ⟨s1.user.interests, s1.user.language, s1.user.preferredTone⟩ }
    else s
  else
    if s.refSet then
      let s1 := { s with
        activeTimers := s.activeTimers - (if s.refTimerAlive then 1 else 0),
        refTimerAlive := false,
        refSet := false }
      addNotification s1 "Auto-Pilot disengaged." NotifType.info
    else s

/-- Cleanup returned by the auto-pilot effect: `clearInterval` on the ref's id
if non-null.  It does NOT null the ref.  Clearing an already cleared id is a
no-op, hence the conditional decrement. -/
def autoPilotCleanup (s : AppState) : AppState :=
  if s.refSet then
    { s with
      activeTimers := s.activeTimers - (if s.refTimerAlive then 1 else 0),
      refTimerAlive := false }
  else s

/-- What React does when one of the auto-pilot effect's deps changed: run the
previous cleanup, then the body. -/
def runAutoPilotEffect (s : AppState) : AppState :=
  autoPilotEffectBody (autoPilotCleanup s)

/-- The interval callback of the auto-pilot effect, at the moment its awaited
`generateAutoTweet` promise settles.  `c` is the closure captured at
`setInterval` time.  The surrounding `try`/`catch` only logs in its catch
branch, so an `Except.error` outcome would change nothing. -/
def autoPilotTick (s : AppState) (c : Closure) (collab : CollabResult)
    (rnd : Nat) : AppState :=
  match generateAutoTweet c.interests c.language c.tone rnd collab with
  | Except.ok tweetContent =>
    let newPost : Tweet :=
      { id := Nat.repr s.now,
        content := tweetContent,
        status := PostStatus.posted,
        scheduledTime := none,
        createdAt := s.now,
        likes := some 0,
        retweets := some 0 }
    addNotification { s with posts := newPost :: s.posts }
      "Auto-Pilot just posted a new tweet!" NotifType.success
  | Except.error _e => s

/-- User-interface and environment events that drive the component.
`setAutoPilot b` is the `setUser(prev => ({...prev, autoPilot: b}))` update
(`toggleAutoPilot` performs it with the negated flag); `timerFire` is one
expiry of the live interval, which dispatches a generation request;
`resolve` is the settlement of the oldest outstanding request; `tickTime`
advances the clock. -/
inductive Event where
  | connect
  | toggleAutoPilot
  | setAutoPilot (b : Bool)
  | addInterest (t : String)
  | removeInterest (t : String)
  | setLanguage (l : String)
  | setTone (t : Tone)
  | handlePostNow (content : String)
  | handleSchedule (content : String)
  | handleDeletePost (id : String)
  | timerFire
  | resolve (collab : CollabResult) (rnd : Nat)
  | tickTime (d : Nat)

/-- One step of the component.  Each handler applies its state updates and
then the effects whose dependency-array entries changed (cleanup before body;
primitive deps by value, the interests array by reference, so a rebuilt
interests list always re-triggers the effect). -/
def step (s : AppState) : Event → AppState
  | Event.connect =>
    let already := s.user.isConnected
    let s1 := { s with user := { s.user with isConnected := true } }
    let s2 := addNotification s1
      "Successfully connected to Twitter account @alex_dev" NotifType.success
    if already then s2 else runAutoPilotEffect (dataEffect s2)
  | Event.toggleAutoPilot =>
    runAutoPilotEffect
      { s with user := { s.user with autoPilot := !s.user.autoPilot } }
  | Event.setAutoPilot b =>
    let s1 := { s with user := { s.user with autoPilot := b } }
    if b = s.user.autoPilot then s1 else runAutoPilotEffect s1
  | Event.addInterest t =>
    if t ≠ "" && !s.user.interests.contains t then
      let s1 :=
        { s with user := { s.user with interests := s.user.interests ++ [t] } }
      runAutoPilotEffect (addNotification s1 ("Added topic: " ++ t) NotifType.success)
    else s
  | Event.removeInterest t =>
    runAutoPilotEffect
      { s with user :=
        { s.user with interests := s.user.interests.filter (fun i => i ≠ t) } }
  | Event.setLanguage l =>
    let s1 := { s with user := { s.user with language := l } }
    if l = s.user.language then s1 else runAutoPilotEffect s1
  | Event.setTone t =>
    let s1 := { s with user := { s.user with preferredTone := t } }
    if t = s.user.preferredTone then s1 else runAutoPilotEffect s1
  | Event.handlePostNow content =>
    let newPost : Tweet :=
      { id := Nat.repr s.now, content := content, status := PostStatus.posted,
        scheduledTime := none, createdAt := s.now,
        likes := some 0, retweets := some 0 }
    addNotification
      { s with posts := newPost :: s.posts,
               generatedOptions := s.generatedOptions.filter (fun t => t ≠ content) }
      "Published successfully!" NotifType.success
  | Event.handleSchedule content =>
    let newPost : Tweet :=
      { id := Nat.repr s.now, content := content, status := PostStatus.scheduled,
        scheduledTime := some (s.now + 7200000), createdAt := s.now,
        likes := none, retweets := none }
    addNotification
      { s with posts := newPost :: s.posts,
               generatedOptions := s.generatedOptions.filter (fun t => t ≠ content) }
      "Tweet scheduled for later." NotifType.success
  | Event.handleDeletePost i =>
    addNotification { s with posts := s.posts.filter (fun p => p.id ≠ i) }
      "Post removed." NotifType.info
  | Event.timerFire =>
    if s.refTimerAlive then
      { s with pending := s.pending ++ [s.timerClosure] }
    else s
  | Event.resolve collab rnd =>
    match s.pending with
    | [] => s
    | c :: rest => autoPilotTick { s with pending := rest } c collab rnd
  | Event.tickTime d => { s with now := s.now + d }

/-- Initial `user` state of the component. -/
def initUser : UserProfile :=
  { handle := "@alex_dev",
    name := "Alex Developer",
    avatarUrl := "https://picsum.photos/seed/alex/200",
    isConnected := false,
    interests := ["React", "AI", "Startup"],
    language := "English",
    preferredTone := Tone.professional,
    autoPilot := false }

/-- State right after mounting at clock `t0`: both effects run once but do
nothing (not connected, flag off, ref null), so the raw initial state is
already post-effect. -/
def initState (t0 : Nat) : AppState :=
  { user := initUser,
    posts := [],
    notifications := [],
    generatedOptions := [],
    refSet := false,
    refTimerAlive := false,
    activeTimers := 0,
    timerClosure := ⟨initUser.interests, initUser.language, initUser.preferredTone⟩,
    pending := [],
    now := t0 }

/-- Run a list of events from a state. -/
def run (s : AppState) (es : List Event) : AppState :=
  es.foldl step s

/-- States the component can actually be in. -/
inductive Reachable : AppState → Prop where
  | init : ∀ t0, Reachable (initState t0)
  | next : ∀ {s} (e : Event), Reachable s → Reachable (step s e)

/-- Number of posts the dashboard counts as posted
(`posts.filter(p => p.status === PostStatus.POSTED).length`). -/
def postedCount (posts : List Tweet) : Nat :=
  (posts.filter fun p => p.status = PostStatus.posted).length

/-- Count of notifications bearing the engaged message. -/
def engagedCount (ns : List NotificationItem) : Nat :=
  (ns.filter fun n =>
    n.message = "Auto-Pilot engaged. AI will post periodically.").length

/-- The at-most-one-timer bookkeeping invariant: the number of running
intervals is 1 exactly when the ref holds an uncleared interval id. -/
def timerInv (s : AppState) : Prop :=
  s.activeTimers = (if s.refSet && s.refTimerAlive then 1 else 0)

/-- Identifier discipline of a post: either its id is the decimal string of
its creation timestamp (all posts created by the handlers and the auto-pilot
cycle) or it is one of the two seeded mock ids. -/
def PostIdOk (p : Tweet) : Prop :=
  p.id = Nat.repr p.createdAt ∨ p.id = "1" ∨ p.id = "2"

/-- All posts in the state satisfy the identifier discipline. -/
def postsIdInv (s : AppState) : Prop := ∀ p ∈ s.posts, PostIdOk p

/-- Decimal digit characters of a natural number, most significant first;
structural-recursion counterpart of `Nat.toDigits 10` used to reason about
`Nat.repr`. -/
def decDigits (n : Nat) : List Char :=
  if h : n < 10 then [Nat.digitChar n]
  else decDigits (n / 10) ++ [Nat.digitChar (n % 10)]
decreasing_by
  exact Nat.div_lt_self (by omega) (by omega)

/-- A placeholder tweet used as the `getD` default in concrete statements. -/
def blankTweet : Tweet :=
  { id := "", content := "", status := PostStatus.generated,
    scheduledTime := none, createdAt := 0, likes := none, retweets := none }

/-- The component at clock 0 right after the connect handshake resolved. -/
def connectedAt (t0 : Nat) : AppState := step (initState t0) Event.connect

/-- Connected, then auto-pilot switched on: the Loop is armed. -/
def armedState : AppState := step (connectedAt 0) Event.toggleAutoPilot

/-- Armed, and the interval has fired once: one generation request is
in flight. -/
def firedState : AppState := step armedState Event.timerFire

/-- The in-flight request resolves with the collaborator raising. -/
def c1_result : AppState :=
  step firedState (Event.resolve (CollabResult.raise "network down") 0)

/-- Connected, all three topics removed, auto-pilot switched on, interval
fired once: a cycle with an empty topic set is in flight. -/
def emptyTopicsState : AppState :=
  run (connectedAt 0)
    [Event.removeInterest "React", Event.removeInterest "AI",
     Event.removeInterest "Startup", Event.toggleAutoPilot, Event.timerFire]

/-- The empty-topic-set cycle resolves (the collaborator outcome is an
arbitrary placeholder: it is never consulted). -/
def c2_result : AppState :=
  step emptyTopicsState (Event.resolve (CollabResult.raise "never called") 0)

/-- Armed with a request in flight, then auto-pilot switched off: the Loop is
Idle but the dispatched request is still outstanding. -/
def idleWithPending : AppState := step firedState Event.toggleAutoPilot

/-- The outstanding request resolves successfully after the Loop went Idle. -/
def c3_result : AppState :=
  step idleWithPending
    (Event.resolve
      (CollabResult.returns (some "Shipping a new feature today! #buildinpublic")) 0)

/-- Armed, then a topic is added while armed (a config mutation, which
re-runs the effect: cleanup clears the interval, the ref guard blocks
re-arming). -/
def c4_state : AppState := step armedState (Event.addInterest "Web3")

/-- Two posts published in the same millisecond (clock 5). -/
def c9_state : AppState :=
  run (initState 5)
    [Event.connect, Event.handlePostNow "hello", Event.handlePostNow "world"]

/-- Two posts published at distinct milliseconds (clocks 3 and 7). -/
def c9w_state : AppState :=
  run (initState 3)
    [Event.connect, Event.handlePostNow "a", Event.tickTime 4,
     Event.handlePostNow "b"]

theorem decDigits_lt {n : Nat} (h : n < 10) :
    decDigits n = [Nat.digitChar n] := by
  rw [decDigits]; simp [h]

theorem decDigits_ge {n : Nat} (h : ¬ n < 10) :
    decDigits n = decDigits (n / 10) ++ [Nat.digitChar (n % 10)] := by
  rw [decDigits]; simp [h]

theorem decDigits_ne_nil (n : Nat) : decDigits n ≠ [] := by
  by_cases h : n < 10
  · rw [decDigits_lt h]; simp
  · rw [decDigits_ge h]; simp

theorem toDigitsCore_append (f n : Nat) (l : List Char) :
    Nat.toDigitsCore 10 f n l = Nat.toDigitsCore 10 f n [] ++ l := by
  induction f generalizing n l with
  | zero => simp [Nat.toDigitsCore]
  | succ f ih =>
    simp only [Nat.toDigitsCore]
    by_cases h : n / 10 = 0
    · simp [h]
    · simp only [h, if_false]
      rw [ih (n / 10) (Nat.digitChar (n % 10) :: l),
          ih (n / 10) [Nat.digitChar (n % 10)]]
      simp

theorem toDigitsCore_eq_decDigits (f n : Nat) (h : n < f) :
    Nat.toDigitsCore 10 f n [] = decDigits n := by
  induction f generalizing n with
  | zero => omega
  | succ f ih =>
    simp only [Nat.toDigitsCore]
    by_cases h10 : n < 10
    · have hdiv : n / 10 = 0 := Nat.div_eq_of_lt h10
      simp [hdiv, decDigits_lt h10, Nat.mod_eq_of_lt h10]
    · have hdiv : n / 10 ≠ 0 := by
        intro hc
        have := (Nat.div_eq_zero_iff (by omega : 0 < 10)).mp hc
        omega
      simp only [hdiv, if_false]
      rw [toDigitsCore_append]
      rw [ih (n / 10) (by
        have hlt : n / 10 < n := Nat.div_lt_self (by omega) (by omega)
        omega)]
      rw [decDigits_ge h10]

theorem toDigits_eq_decDigits (n : Nat) :
    Nat.toDigits 10 n = decDigits n := by
  unfold Nat.toDigits
  exact toDigitsCore_eq_decDigits (n + 1) n (Nat.lt_succ_self n)

theorem digitChar_inj : ∀ a < 10, ∀ b < 10,
    Nat.digitChar a = Nat.digitChar b → a = b := by decide

theorem decDigits_inj (m : Nat) :
    ∀ n, decDigits m = decDigits n → m = n := by
  induction m using Nat.strong_induction_on with
  | _ m ih =>
    intro n heq
    by_cases hm : m < 10 <;> by_cases hn : n < 10
    · rw [decDigits_lt hm, decDigits_lt hn] at heq
      simp only [List.cons.injEq, and_true] at heq
      exact digitChar_inj m hm n hn heq
    · rw [decDigits_lt hm, decDigits_ge hn] at heq
      have hlen := congrArg List.length heq
      simp only [List.length_singleton, List.length_append] at hlen
      have : (decDigits (n / 10)).length = 0 := by omega
      exact absurd (List.length_eq_zero.mp this) (decDigits_ne_nil _)
    · rw [decDigits_ge hm, decDigits_lt hn] at heq
      have hlen := congrArg List.length heq
      simp only [List.length_singleton, List.length_append] at hlen
      have : (decDigits (m / 10)).length = 0 := by omega
      exact absurd (List.length_eq_zero.mp this) (decDigits_ne_nil _)
    · rw [decDigits_ge hm, decDigits_ge hn] at heq
      have hparts := List.append_inj' heq (by simp)
      have hdiv : m / 10 = n / 10 :=
        ih (m / 10) (Nat.div_lt_self (by omega) (by omega)) (n / 10) hparts.1
      have hmod : m % 10 = n % 10 := by
        have h2 := hparts.2
        simp only [List.cons.injEq, and_true] at h2
        exact digitChar_inj (m % 10) (Nat.mod_lt _ (by omega)) (n % 10)
          (Nat.mod_lt _ (by omega)) h2
      omega

theorem repr_inj {m n : Nat} (h : Nat.repr m = Nat.repr n) : m = n := by
  unfold Nat.repr at h
  rw [toDigits_eq_decDigits, toDigits_eq_decDigits] at h
  apply decDigits_inj
  have : (decDigits m).asString.data = (decDigits n).asString.data :=
    congrArg String.data h
  simpa [List.asString] using this

theorem generateAutoTweet_isOk (interests : List String) (language : String)
    (tone : Tone) (rnd : Nat) (collab : CollabResult) :
    ∃ out, generateAutoTweet interests language tone rnd collab =
      Except.ok out := by
  unfold generateAutoTweet
  by_cases h : interests.length = 0
  · exact ⟨_, by simp [h]; rfl⟩
  · cases collab with
    | raise msg => exact ⟨_, by simp [h]; rfl⟩
    | returns t =>
      cases t with
      | none => exact ⟨_, by simp [h]; rfl⟩
      | some v =>
        by_cases hv : jsTrim v = ""
        · exact ⟨_, by simp [h, hv]; rfl⟩
        · exact ⟨_, by simp [h, hv]; rfl⟩

theorem resolve_appends_one (s : AppState) (c : Closure) (rest : List Closure)
    (collab : CollabResult) (rnd : Nat) (h : s.pending = c :: rest) :
    (step s (Event.resolve collab rnd)).posts.length = s.posts.length + 1 := by
  obtain ⟨out, hout⟩ :=
    generateAutoTweet_isOk c.interests c.language c.tone rnd collab
  simp [step, h, autoPilotTick, hout, addNotification]

theorem resolve_user (s : AppState) (collab : CollabResult) (rnd : Nat) :
    (step s (Event.resolve collab rnd)).user = s.user := by
  cases hp : s.pending with
  | nil => simp [step, hp]
  | cons c rest =>
    cases hgen : generateAutoTweet c.interests c.language c.tone rnd collab with
    | ok out => simp [step, hp, autoPilotTick, hgen, addNotification]
    | error e => simp [step, hp, autoPilotTick, hgen]

theorem timerInv_addNotification (s : AppState) (m : String) (ty : NotifType)
    (h : timerInv s) : timerInv (addNotification s m ty) := by
  simpa [timerInv, addNotification] using h

theorem timerInv_dataEffect (s : AppState) (h : timerInv s) :
    timerInv (dataEffect s) := by
  unfold dataEffect
  split <;> simpa [timerInv] using h

theorem timerInv_cleanup (s : AppState) (h : timerInv s) :
    timerInv (autoPilotCleanup s) := by
  unfold autoPilotCleanup timerInv at *
  split_ifs with h1 <;> simp_all

theorem timerInv_body (s : AppState) (h : timerInv s) :
    timerInv (autoPilotEffectBody s) := by
  unfold autoPilotEffectBody timerInv at *
  split_ifs with h1 h2 h3 <;> simp_all [addNotification]

theorem timerInv_runEffect (s : AppState) (h : timerInv s) :
    timerInv (runAutoPilotEffect s) :=
  timerInv_body _ (timerInv_cleanup _ h)

theorem timerInv_tick (s : AppState) (c : Closure) (collab : CollabResult)
    (rnd : Nat) (h : timerInv s) : timerInv (autoPilotTick s c collab rnd) := by
  unfold autoPilotTick
  cases generateAutoTweet c.interests c.language c.tone rnd collab with
  | ok out => exact timerInv_addNotification _ _ _ (by simpa [timerInv] using h)
  | error e => exact h

theorem timerInv_step (s : AppState) (e : Event) (h : timerInv s) :
    timerInv (step s e) := by
  cases e with
  | connect =>
    simp only [step]
    split
    · exact timerInv_addNotification _ _ _ (by simpa [timerInv] using h)
    · exact timerInv_runEffect _ (timerInv_dataEffect _
        (timerInv_addNotification _ _ _ (by simpa [timerInv] using h)))
  | toggleAutoPilot =>
    exact timerInv_runEffect _ (by simpa [timerInv] using h)
  | setAutoPilot b =>
    simp only [step]
    split
    · simpa [timerInv] using h
    · exact timerInv_runEffect _ (by simpa [timerInv] using h)
  | addInterest t =>
    simp only [step]
    split
    · exact timerInv_runEffect _ (timerInv_addNotification _ _ _
        (by simpa [timerInv] using h))
    · exact h
  | removeInterest t =>
    exact timerInv_runEffect _ (by simpa [timerInv] using h)
  | setLanguage l =>
    simp only [step]
    split
    · simpa [timerInv] using h
    · exact timerInv_runEffect _ (by simpa [timerInv] using h)
  | setTone t =>
    simp only [step]
    split
    · simpa [timerInv] using h
    · exact timerInv_runEffect _ (by simpa [timerInv] using h)
  | handlePostNow content =>
    exact timerInv_addNotification _ _ _ (by simpa [timerInv] using h)
  | handleSchedule content =>
    exact timerInv_addNotification _ _ _ (by simpa [timerInv] using h)
  | handleDeletePost i =>
    exact timerInv_addNotification _ _ _ (by simpa [timerInv] using h)
  | timerFire =>
    simp only [step]
    split
    · simpa [timerInv] using h
    · exact h
  | resolve collab rnd =>
    simp only [step]
    cases hp : s.pending with
    | nil => exact h
    | cons c rest =>
      exact timerInv_tick _ _ _ _ (by simpa [timerInv] using h)
  | tickTime d =>
    simpa [timerInv] using h

theorem timerInv_reachable (s : AppState) (h : Reachable s) : timerInv s := by
  induction h with
  | init t0 => simp [timerInv, initState]
  | next e hs ih => exact timerInv_step _ e ih

theorem setAutoPilot_noop (s : AppState) (b : Bool)
    (h : s.user.autoPilot = b) : step s (Event.setAutoPilot b) = s := by
  obtain ⟨u, posts, notifs, go, rs, rta, timers, tc, pend, n⟩ := s
  obtain ⟨handle, nm, av, conn, ints, lang, tn, ap⟩ := u
  simp only [step] at *
  simp_all

theorem posts_addNotification (s : AppState) (m : String) (ty : NotifType) :
    (addNotification s m ty).posts = s.posts := rfl

theorem posts_cleanup (s : AppState) : (autoPilotCleanup s).posts = s.posts := by
  unfold autoPilotCleanup; split <;> rfl

theorem posts_body (s : AppState) :
    (autoPilotEffectBody s).posts = s.posts := by
  unfold autoPilotEffectBody
  split_ifs <;> simp [addNotification]

theorem posts_runEffect (s : AppState) :
    (runAutoPilotEffect s).posts = s.posts := by
  unfold runAutoPilotEffect
  rw [posts_body, posts_cleanup]

theorem postsIdInv_step (s : AppState) (e : Event) (h : postsIdInv s) :
    postsIdInv (step s e) := by
  cases e with
  | connect =>
    simp only [step]
    split
    · simpa [postsIdInv, posts_addNotification] using h
    · intro p hp
      rw [posts_runEffect] at hp
      simp [dataEffect, addNotification, mockPosts] at hp
      rcases hp with h1 | h2
      · subst h1; right; left; rfl
      · subst h2; right; right; rfl
  | toggleAutoPilot =>
    intro p hp
    rw [step, posts_runEffect] at hp
    exact h p hp
  | setAutoPilot b =>
    intro p hp
    simp only [step] at hp
    split at hp
    · exact h p hp
    · rw [posts_runEffect] at hp; exact h p hp
  | addInterest t =>
    intro p hp
    simp only [step] at hp
    split at hp
    · rw [posts_runEffect, posts_addNotification] at hp; exact h p hp
    · exact h p hp
  | removeInterest t =>
    intro p hp
    rw [step, posts_runEffect] at hp
    exact h p hp
  | setLanguage l =>
    intro p hp
    simp only [step] at hp
    split at hp
    · exact h p hp
    · rw [posts_runEffect] at hp; exact h p hp
  | setTone t =>
    intro p hp
    simp only [step] at hp
    split at hp
    · exact h p hp
    · rw [posts_runEffect] at hp; exact h p hp
  | handlePostNow content =>
    intro p hp
    simp only [step, posts_addNotification] at hp
    rcases List.mem_cons.mp hp with h1 | h2
    · subst h1; left; rfl
    · exact h p h2
  | handleSchedule content =>
    intro p hp
    simp only [step, posts_addNotification] at hp
    rcases List.mem_cons.mp hp with h1 | h2
    · subst h1; left; rfl
    · exact h p h2
  | handleDeletePost i =>
    intro p hp
    simp only [step, posts_addNotification] at hp
    exact h p (List.mem_of_mem_filter hp)
  | timerFire =>
    intro p hp
    simp only [step] at hp
    split at hp <;> exact h p hp
  | resolve collab rnd =>
    intro p hp
    cases hpend : s.pending with
    | nil => simp only [step, hpend] at hp; exact h p hp
    | cons c rest =>
      cases hgen : generateAutoTweet c.interests c.language c.tone rnd collab with
      | ok out =>
        simp only [step, hpend, autoPilotTick, hgen, posts_addNotification] at hp
        rcases List.mem_cons.mp hp with h1 | h2
        · subst h1; left; rfl
        · exact h p h2
      | error e =>
        simp only [step, hpend, autoPilotTick, hgen] at hp
        exact h p hp
  | tickTime d =>
    intro p hp
    simp only [step] at hp
    exact h p hp

theorem postsIdInv_reachable (s : AppState) (h : Reachable s) : postsIdInv s := by
  induction h with
  | init t0 => intro p hp; simp [initState] at hp
  | next e hs ih => exact postsIdInv_step _ e ih

/-- C1, counterexample: in the cycle where the collaborator fails (rejects
with "network down"), the code DOES create a post (queue grows from 2 to 3,
with the topic-based fallback text) and DOES emit a user-facing success
notification, contradicting the claim that the queue is unchanged and no
notification is emitted. -/
theorem c1_counterexample :
    firedState.posts.length = 2 ∧ firedState.notifications.length = 2
    ∧ c1_result.posts.length = 3
    ∧ (c1_result.posts.getD 0 blankTweet).content =
        "Excited to learn more about React! #learning"
    ∧ (c1_result.posts.getD 0 blankTweet).status = PostStatus.posted
    ∧ c1_result.notifications.length = 3
    ∧ (c1_result.notifications.getD 2 (mkNotif 0 NotifType.info "")).message =
        "Auto-Pilot just posted a new tweet!" := by decide

/-- C1, amended: in every auto-pilot cycle where the collaborator raises,
`generateAutoTweet` swallows the failure and returns the topic-based fallback
string, so the cycle still creates exactly one `Posted` post (prepended, with
the fallback content) and emits a success notification; the Loop does remain
armed (timer fields and user state untouched) and the failure is only
logged. -/
theorem c1_amended (s : AppState) (c : Closure) (rest : List Closure)
    (msg : String) (rnd : Nat) (hp : s.pending = c :: rest)
    (hi : c.interests ≠ []) :
    (step s (Event.resolve (CollabResult.raise msg) rnd)).posts =
      { id := Nat.repr s.now,
        content := "Excited to learn more about " ++
          c.interests.getD (rnd % c.interests.length) "" ++ "! #learning",
        status := PostStatus.posted, scheduledTime := none, createdAt := s.now,
        likes := some 0, retweets := some 0 } :: s.posts
    ∧ (step s (Event.resolve (CollabResult.raise msg) rnd)).notifications =
        s.notifications ++
          [mkNotif s.now NotifType.success "Auto-Pilot just posted a new tweet!"]
    ∧ (step s (Event.resolve (CollabResult.raise msg) rnd)).refSet = s.refSet
    ∧ (step s (Event.resolve (CollabResult.raise msg) rnd)).refTimerAlive =
        s.refTimerAlive
    ∧ (step s (Event.resolve (CollabResult.raise msg) rnd)).user = s.user := by
  have hl : c.interests.length ≠ 0 := by simpa using hi
  have hgen : generateAutoTweet c.interests c.language c.tone rnd
      (CollabResult.raise msg) =
      Except.ok ("Excited to learn more about " ++
        c.interests.getD (rnd % c.interests.length) "" ++ "! #learning") := by
    simp [generateAutoTweet, hl]
  refine ⟨?_, ?_, ?_, ?_, ?_⟩ <;>
    simp [step, hp, autoPilotTick, hgen, addNotification]

/-- C1, witness: the amended statement evaluated on the concrete failing
cycle of the counterexample trace. -/
theorem c1_amended_witness :
    (step firedState (Event.resolve (CollabResult.raise "network down") 0)).notifications =
      firedState.notifications ++
        [mkNotif firedState.now NotifType.success "Auto-Pilot just posted a new tweet!"]
    ∧ (step firedState (Event.resolve (CollabResult.raise "network down") 0)).refTimerAlive =
        firedState.refTimerAlive := by
  have h := c1_amended firedState
    ⟨["React", "AI", "Startup"], "English", Tone.professional⟩ []
    "network down" 0 (by decide) (by decide)
  exact ⟨h.2.1, h.2.2.2.1⟩

/-- C2, counterexample: a cycle firing with an empty topic set never consults
the collaborator, but the queue is NOT unchanged: `generateAutoTweet` returns
the advisory string and the callback turns it into a new post (queue grows
from 2 to 3), contradicting the claim's "queue is unchanged". -/
theorem c2_counterexample :
    emptyTopicsState.timerClosure.interests = []
    ∧ emptyTopicsState.posts.length = 2
    ∧ c2_result.posts.length = 3
    ∧ (c2_result.posts.getD 0 blankTweet).content =
        "I need interests to generate a tweet!"
    ∧ (c2_result.posts.getD 0 blankTweet).status = PostStatus.posted := by
  decide

/-- C2, amended: a cycle whose captured topic set is empty never invokes the
collaborator (its outcome and the random draw are irrelevant: any two give
the identical next state), but the cycle still appends one `Posted` post
whose content is the fixed advisory string. -/
theorem c2_amended (s : AppState) (c : Closure) (rest : List Closure)
    (hp : s.pending = c :: rest) (hi : c.interests = [])
    (collab collab' : CollabResult) (rnd rnd' : Nat) :
    step s (Event.resolve collab rnd) = step s (Event.resolve collab' rnd')
    ∧ (step s (Event.resolve collab rnd)).posts =
      { id := Nat.repr s.now, content := "I need interests to generate a tweet!",
        status := PostStatus.posted, scheduledTime := none, createdAt := s.now,
        likes := some 0, retweets := some 0 } :: s.posts := by
  have hgen : ∀ (cb : CollabResult) (r : Nat),
      generateAutoTweet c.interests c.language c.tone r cb =
        Except.ok "I need interests to generate a tweet!" := by
    intro cb r
    simp [generateAutoTweet, hi]
  refine ⟨?_, ?_⟩ <;>
    simp [step, hp, autoPilotTick, hgen, addNotification]

/-- C2, witness: the amended statement evaluated on the concrete
empty-topic-set cycle. -/
theorem c2_amended_witness :
    step emptyTopicsState (Event.resolve (CollabResult.raise "never called") 0) =
      step emptyTopicsState (Event.resolve (CollabResult.returns (some "ignored")) 7)
    ∧ (step emptyTopicsState (Event.resolve (CollabResult.raise "never called") 0)).posts =
      { id := Nat.repr emptyTopicsState.now,
        content := "I need interests to generate a tweet!",
        status := PostStatus.posted, scheduledTime := none,
        createdAt := emptyTopicsState.now,
        likes := some 0, retweets := some 0 } :: emptyTopicsState.posts := by
  have h := c2_amended emptyTopicsState ⟨[], "English", Tone.professional⟩ []
    (by decide) (by decide) (CollabResult.raise "never called")
    (CollabResult.returns (some "ignored")) 0 7
  exact h

/-- C3, counterexample: auto-pilot is enabled, a request is dispatched, then
auto-pilot is disabled (Loop Idle: flag off, ref null, no timer) while the
request is still outstanding; when the request completes its result is NOT
discarded: a post is appended to the queue after the Loop moved to Idle,
contradicting the claim. -/
theorem c3_counterexample :
    idleWithPending.user.autoPilot = false
    ∧ idleWithPending.refSet = false
    ∧ idleWithPending.activeTimers = 0
    ∧ idleWithPending.pending.length = 1
    ∧ idleWithPending.posts.length = 2
    ∧ c3_result.posts.length = 3
    ∧ (c3_result.posts.getD 0 blankTweet).content =
        "Shipping a new feature today! #buildinpublic" := by decide

/-- C3, amended: the code has no discard guard — an in-flight generation
request dispatched before the Loop moved to Idle still appends its post
(exactly one) when it completes, with the Loop still Idle afterwards. -/
theorem c3_amended (s : AppState) (c : Closure) (rest : List Closure)
    (collab : CollabResult) (rnd : Nat) (hp : s.pending = c :: rest)
    (hIdle : s.user.autoPilot = false) (hr : s.refSet = false) :
    (step s (Event.resolve collab rnd)).posts.length = s.posts.length + 1
    ∧ (step s (Event.resolve collab rnd)).user.autoPilot = false
    ∧ (step s (Event.resolve collab rnd)).refSet = false := by
  refine ⟨resolve_appends_one s c rest collab rnd hp, ?_, ?_⟩
  · rw [resolve_user]; exact hIdle
  · cases hgen : generateAutoTweet c.interests c.language c.tone rnd collab with
    | ok out => simpa [step, hp, autoPilotTick, hgen, addNotification] using hr
    | error e => simpa [step, hp, autoPilotTick, hgen] using hr

/-- C3, witness: the amended statement evaluated on the concrete
disable-while-in-flight trace. -/
theorem c3_amended_witness :
    (step idleWithPending
        (Event.resolve (CollabResult.returns (some "Hello world! #hi")) 2)).posts.length =
      idleWithPending.posts.length + 1
    ∧ (step idleWithPending
        (Event.resolve (CollabResult.returns (some "Hello world! #hi")) 2)).user.autoPilot =
      false := by
  have h := c3_amended idleWithPending
    ⟨["React", "AI", "Startup"], "English", Tone.professional⟩ []
    (CollabResult.returns (some "Hello world! #hi")) 2
    (by decide) (by decide) (by decide)
  exact ⟨h.1, h.2.1⟩

/-- C4: the claim says ticks continue with the latest configuration after a
config mutation while armed; the code diverges.  Evaluated at the failing
input (armed loop, then `addInterest "Web3"`): the effect's cleanup clears
the interval but leaves the ref non-null, and the re-run body's
`!autoPilotIntervalRef.current` guard then refuses to create a new interval —
afterwards the flag still says armed and connected and the config was
updated, yet no timer is running and a timer-fire event is a no-op, so no
further cycle can ever read the new configuration. -/
theorem c4_config_mutation_kills_timer :
    armedState.refTimerAlive = true ∧ armedState.activeTimers = 1
    ∧ c4_state.user.autoPilot = true ∧ c4_state.user.isConnected = true
    ∧ c4_state.user.interests = ["React", "AI", "Startup", "Web3"]
    ∧ c4_state.refSet = true ∧ c4_state.refTimerAlive = false
    ∧ c4_state.activeTimers = 0
    ∧ step c4_state Event.timerFire = c4_state := by decide

/-- C5: (1) every reachable component state has at most one active interval;
(2) re-running the supervision effect while the flag is on and a timer handle
is held creates no additional timer and emits no notification; (3) setting
the auto-pilot flag to true twice in a row from a connected Idle state yields
exactly one active timer and exactly one additional "engaged"
notification. -/
theorem c5_single_timer_invariant :
    (∀ s, Reachable s → s.activeTimers ≤ 1)
    ∧ (∀ s, s.user.autoPilot = true → s.user.isConnected = true →
        s.refSet = true →
        (runAutoPilotEffect s).activeTimers ≤ s.activeTimers
        ∧ (runAutoPilotEffect s).notifications = s.notifications)
    ∧ (∀ s, s.user.isConnected = true → s.user.autoPilot = false →
        s.refSet = false → s.refTimerAlive = false → s.activeTimers = 0 →
        (run s [Event.setAutoPilot true, Event.setAutoPilot true]).activeTimers = 1
        ∧ engagedCount
            (run s [Event.setAutoPilot true, Event.setAutoPilot true]).notifications
          = engagedCount s.notifications + 1) := by
  refine ⟨?_, ?_, ?_⟩
  · intro s hs
    have h := timerInv_reachable s hs
    unfold timerInv at h
    split_ifs at h <;> omega
  · intro s ha hc hr
    unfold runAutoPilotEffect autoPilotCleanup autoPilotEffectBody
    simp [ha, hc, hr]
  · intro s hc ha hr hrta ht
    obtain ⟨u, posts, notifs, go, rs, rta, timers, tc, pend, n⟩ := s
    obtain ⟨handle, nm, av, conn, ints, lang, tn, ap⟩ := u
    simp only at ha hc hr hrta ht
    subst ha hc hr hrta ht
    simp [run, step, runAutoPilotEffect, autoPilotCleanup, autoPilotEffectBody,
      addNotification, engagedCount, mkNotif]

/-- C5, witness: the invariant and the double-enable scenario evaluated on
the concrete connected state. -/
theorem c5_single_timer_invariant_witness :
    (connectedAt 0).activeTimers ≤ 1
    ∧ (run (connectedAt 0) [Event.setAutoPilot true, Event.setAutoPilot true]).activeTimers = 1
    ∧ engagedCount
        (run (connectedAt 0) [Event.setAutoPilot true, Event.setAutoPilot true]).notifications
      = engagedCount (connectedAt 0).notifications + 1 := by
  have h := c5_single_timer_invariant
  have hsc := h.2.2 (connectedAt 0) (by decide) (by decide) (by decide)
    (by decide) (by decide)
  exact ⟨h.1 (connectedAt 0) (Reachable.next Event.connect (Reachable.init 0)),
    hsc.1, hsc.2⟩

/-- C6: a cycle in which the collaborator succeeds (non-empty trimmed text)
creates exactly one post — status `Posted`, zero likes and reposts,
`createdAt` equal to the current clock, id the clock's decimal string —
prepends it to the queue, raises the Posted count by exactly one, and emits
one success notification. -/
theorem c6_successful_cycle (s : AppState) (c : Closure) (rest : List Closure)
    (t : String) (rnd : Nat) (hp : s.pending = c :: rest)
    (hi : c.interests ≠ []) (ht : jsTrim t ≠ "") :
    (step s (Event.resolve (CollabResult.returns (some t)) rnd)).posts =
      { id := Nat.repr s.now, content := jsTrim t, status := PostStatus.posted,
        scheduledTime := none, createdAt := s.now, likes := some 0,
        retweets := some 0 } :: s.posts
    ∧ postedCount (step s (Event.resolve (CollabResult.returns (some t)) rnd)).posts
        = postedCount s.posts + 1
    ∧ (step s (Event.resolve (CollabResult.returns (some t)) rnd)).notifications =
        s.notifications ++
          [mkNotif s.now NotifType.success "Auto-Pilot just posted a new tweet!"] := by
  have hl : c.interests.length ≠ 0 := by simpa using hi
  have hgen : generateAutoTweet c.interests c.language c.tone rnd
      (CollabResult.returns (some t)) = Except.ok (jsTrim t) := by
    simp [generateAutoTweet, hl, ht]
  refine ⟨?_, ?_, ?_⟩ <;>
    simp [step, hp, autoPilotTick, hgen, addNotification, postedCount,
      List.filter_cons]

/-- C6, witness: the successful-cycle statement evaluated on the concrete
armed-and-fired state with the spec's example text. -/
theorem c6_successful_cycle_witness :
    (step firedState
        (Event.resolve (CollabResult.returns (some "Exploring AI tools today. #AI")) 1)).posts =
      { id := Nat.repr firedState.now,
        content := jsTrim "Exploring AI tools today. #AI",
        status := PostStatus.posted, scheduledTime := none,
        createdAt := firedState.now, likes := some 0, retweets := some 0 } ::
        firedState.posts
    ∧ postedCount
        (step firedState
          (Event.resolve (CollabResult.returns (some "Exploring AI tools today. #AI")) 1)).posts
      = postedCount firedState.posts + 1 := by
  have h := c6_successful_cycle firedState
    ⟨["React", "AI", "Startup"], "English", Tone.professional⟩ []
    "Exploring AI tools today. #AI" 1 (by decide) (by decide) (by decide)
  exact ⟨h.1, h.2.1⟩

/-- C7: from a connected Idle state, enabling then disabling auto-pilot
before any tick creates zero posts and exactly two notifications, the engaged
one first and the disengaged one second; once Idle again, disabling again
(setting the flag to false) is a strict no-op. -/
theorem c7_engage_disengage (s : AppState) (hc : s.user.isConnected = true)
    (ha : s.user.autoPilot = false) (hr : s.refSet = false)
    (hrta : s.refTimerAlive = false) :
    (run s [Event.toggleAutoPilot, Event.toggleAutoPilot]).posts = s.posts
    ∧ (run s [Event.toggleAutoPilot, Event.toggleAutoPilot]).notifications =
        s.notifications ++
          [mkNotif s.now NotifType.success "Auto-Pilot engaged. AI will post periodically.",
           mkNotif s.now NotifType.info "Auto-Pilot disengaged."]
    ∧ step (run s [Event.toggleAutoPilot, Event.toggleAutoPilot])
        (Event.setAutoPilot false) =
        run s [Event.toggleAutoPilot, Event.toggleAutoPilot] := by
  obtain ⟨u, posts, notifs, go, rs, rta, timers, tc, pend, n⟩ := s
  obtain ⟨handle, nm, av, conn, ints, lang, tn, ap⟩ := u
  simp only at hc ha hr hrta
  subst hc ha hr hrta
  refine ⟨?_, ?_, ?_⟩ <;>
    simp [run, step, runAutoPilotEffect, autoPilotCleanup, autoPilotEffectBody,
      addNotification]

/-- C7, witness: the engage-then-disengage statement evaluated on the
concrete connected state. -/
theorem c7_engage_disengage_witness :
    (run (connectedAt 0) [Event.toggleAutoPilot, Event.toggleAutoPilot]).posts =
      (connectedAt 0).posts
    ∧ (run (connectedAt 0) [Event.toggleAutoPilot, Event.toggleAutoPilot]).notifications =
        (connectedAt 0).notifications ++
          [mkNotif (connectedAt 0).now NotifType.success "Auto-Pilot engaged. AI will post periodically.",
           mkNotif (connectedAt 0).now NotifType.info "Auto-Pilot disengaged."] := by
  have h := c7_engage_disengage (connectedAt 0) (by decide) (by decide)
    (by decide) (by decide)
  exact ⟨h.1, h.2.1⟩

/-- C8: for every non-empty topic list the manual multi-candidate generation
returns an `ok` value for every collaborator outcome and every `JSON.parse`
behaviour (no exception ever propagates to the caller), and whenever the
collaborator raises, the result is the two-element placeholder fallback
sequence. -/
theorem c8_manual_generation_no_raise : ∀ (interests : List String)
    (language : String) (tone : Tone) (count : Nat) (collab : CollabResult)
    (parse : String → Except JsErr (List String)), interests ≠ [] →
    (∃ l, generateTweetIdeas interests language tone count collab parse =
        Except.ok l)
    ∧ (∀ msg, collab = CollabResult.raise msg →
        generateTweetIdeas interests language tone count collab parse =
          Except.ok
            [ "Could not connect to AI: " ++ msg ++ ". Check API Key.",
              "Here is a sample tweet about " ++ headOrTech interests ++
                " generated locally as fallback." ]) := by
  intro interests language tone count collab parse h
  have hl : interests.length ≠ 0 := by simpa using h
  constructor
  · unfold generateTweetIdeas
    cases collab with
    | raise msg => exact ⟨_, by simp [hl]; rfl⟩
    | returns t =>
      cases t with
      | none => exact ⟨_, by simp [hl]; rfl⟩
      | some v =>
        by_cases hv : v = ""
        · exact ⟨_, by simp [hl, hv]; rfl⟩
        · cases hp : parse v with
          | ok arr => exact ⟨_, by simp [hl, hv, hp]; rfl⟩
          | error e => exact ⟨_, by simp [hl, hv, hp]; rfl⟩
  · intro msg hc
    subst hc
    simp [generateTweetIdeas, hl]

/-- C8, witness: evaluated with one topic, a rejecting collaborator and a
throwing parser. -/
theorem c8_manual_generation_no_raise_witness :
    generateTweetIdeas ["AI"] "English" Tone.professional 3
      (CollabResult.raise "boom") (fun _ => Except.error ⟨"SyntaxError"⟩) =
      Except.ok
        [ "Could not connect to AI: boom. Check API Key.",
          "Here is a sample tweet about AI generated locally as fallback." ] := by
  have h := c8_manual_generation_no_raise ["AI"] "English" Tone.professional 3
    (CollabResult.raise "boom") (fun _ => Except.error ⟨"SyntaxError"⟩)
    (by decide)
  rw [h.2 "boom" rfl]
  exact rfl

/-- C9, counterexample: two posts published in the same millisecond (clock 5)
are distinct posts (different content) but receive the identical id "5", so
post ids are NOT unique regardless of creation times. -/
theorem c9_counterexample :
    c9_state.posts.map Tweet.id = ["5", "5", "1", "2"]
    ∧ (c9_state.posts.getD 0 blankTweet).content = "world"
    ∧ (c9_state.posts.getD 1 blankTweet).content = "hello"
    ∧ (c9_state.posts.getD 0 blankTweet).id =
        (c9_state.posts.getD 1 blankTweet).id := by decide

/-- C9, amended: every id is the decimal string of the creation timestamp
(`Date.now().toString()`), apart from the two seeded mock posts with ids "1"
and "2"; consequently uniqueness holds exactly up to clock collisions: two
non-seed posts created at distinct millisecond timestamps have distinct ids,
and two notifications created at distinct timestamps have distinct ids —
while same-millisecond creations share an id (see the counterexample). -/
theorem c9_amended :
    (∀ s, Reachable s → postsIdInv s)
    ∧ (∀ s, Reachable s → ∀ p ∈ s.posts, ∀ q ∈ s.posts,
        p.id ≠ "1" → p.id ≠ "2" → q.id ≠ "1" → q.id ≠ "2" →
        p.createdAt ≠ q.createdAt → p.id ≠ q.id)
    ∧ (∀ t t' : Nat, ∀ ty ty' : NotifType, ∀ m m' : String,
        t ≠ t' → (mkNotif t ty m).id ≠ (mkNotif t' ty' m').id) := by
  refine ⟨fun s hs => postsIdInv_reachable s hs, ?_, ?_⟩
  · intro s hs p hpmem q hqmem hp1 hp2 hq1 hq2 hne heq
    have hinvp := postsIdInv_reachable s hs p hpmem
    have hinvq := postsIdInv_reachable s hs q hqmem
    rcases hinvp with h1 | h1 | h1
    · rcases hinvq with h2 | h2 | h2
      · exact hne (repr_inj (by rw [← h1, ← h2, heq]))
      · exact hq1 h2
      · exact hq2 h2
    · exact hp1 h1
    · exact hp2 h1
  · intro t t' ty ty' m m' hne heq
    exact hne (repr_inj (by simpa [mkNotif] using heq))

/-- C9, witness: distinct-timestamp posts in a concrete reachable run have
distinct ids, and notification ids at clocks 0 and 1 differ. -/
theorem c9_amended_witness :
    (c9w_state.posts.getD 0 blankTweet).id ≠
      (c9w_state.posts.getD 1 blankTweet).id
    ∧ (mkNotif 0 NotifType.info "x").id ≠ (mkNotif 1 NotifType.info "x").id := by
  have h := c9_amended
  constructor
  · exact h.2.1 c9w_state
      (Reachable.next (Event.handlePostNow "b")
        (Reachable.next (Event.tickTime 4)
          (Reachable.next (Event.handlePostNow "a")
            (Reachable.next Event.connect (Reachable.init 3)))))
      (c9w_state.posts.getD 0 blankTweet) (by decide)
      (c9w_state.posts.getD 1 blankTweet) (by decide)
      (by decide) (by decide) (by decide) (by decide) (by decide)
  · exact h.2.2 0 1 NotifType.info NotifType.info "x" "x" (by decide)

/-- C10: `generateAutoTweet` is total — for every input it returns `ok`:
the advisory string on empty topics, the "#learning" topic fallback when the
collaborator raises, the "Checking out" topic fallback when the response text
is absent or trims to empty — and therefore the catch branch of the
interval callback's `try`/`catch` is unreachable: every resolution of a
dispatched cycle takes the success path and appends exactly one post. -/
theorem c10_generateAutoTweet_total : ∀ (interests : List String)
    (language : String) (tone : Tone) (rnd : Nat) (collab : CollabResult),
    (∃ out, generateAutoTweet interests language tone rnd collab = Except.ok out)
    ∧ (interests = [] →
        generateAutoTweet interests language tone rnd collab =
          Except.ok "I need interests to generate a tweet!")
    ∧ (∀ msg, interests ≠ [] →
        generateAutoTweet interests language tone rnd (CollabResult.raise msg) =
          Except.ok ("Excited to learn more about " ++
            interests.getD (rnd % interests.length) "" ++ "! #learning"))
    ∧ (interests ≠ [] →
        generateAutoTweet interests language tone rnd (CollabResult.returns none) =
          Except.ok ("Checking out the latest in " ++
            interests.getD (rnd % interests.length) "" ++ "!"))
    ∧ (∀ t, interests ≠ [] → jsTrim t = "" →
        generateAutoTweet interests language tone rnd (CollabResult.returns (some t)) =
          Except.ok ("Checking out the latest in " ++
            interests.getD (rnd % interests.length) "" ++ "!"))
    ∧ (∀ s c rest, s.pending = c :: rest →
        (step s (Event.resolve collab rnd)).posts.length = s.posts.length + 1) := by
  intro interests language tone rnd collab
  refine ⟨generateAutoTweet_isOk _ _ _ _ _, ?_, ?_, ?_, ?_, ?_⟩
  · intro h; subst h; simp [generateAutoTweet]
  · intro msg h
    have hl : interests.length ≠ 0 := by simpa using h
    simp [generateAutoTweet, hl]
  · intro h
    have hl : interests.length ≠ 0 := by simpa using h
    simp [generateAutoTweet, hl]
  · intro t h ht
    have hl : interests.length ≠ 0 := by simpa using h
    simp [generateAutoTweet, hl, ht]
  · intro s c rest h
    exact resolve_appends_one s c rest collab rnd h

/-- C10, witness: totality evaluated at the empty-topics input, at a
rejecting collaborator, and on the concrete in-flight cycle. -/
theorem c10_generateAutoTweet_total_witness :
    generateAutoTweet [] "English" Tone.professional 0 (CollabResult.returns none) =
      Except.ok "I need interests to generate a tweet!"
    ∧ generateAutoTweet ["AI"] "English" Tone.casual 0 (CollabResult.raise "boom") =
      Except.ok "Excited to learn more about AI! #learning"
    ∧ (step firedState
        (Event.resolve (CollabResult.raise "boom") 0)).posts.length =
      firedState.posts.length + 1 := by
  have h1 := c10_generateAutoTweet_total [] "English" Tone.professional 0
    (CollabResult.returns none)
  have h2 := c10_generateAutoTweet_total ["AI"] "English" Tone.casual 0
    (CollabResult.raise "boom")
  refine ⟨h1.2.1 rfl, ?_, ?_⟩
  · rw [h2.2.2.1 "boom" (by decide)]
    exact rfl
  · exact h2.2.2.2.2.2 firedState
      ⟨["React", "AI", "Startup"], "English", Tone.professional⟩ [] (by decide)
